import Mathlib

/-!
Verification of the Crux AI voice-assistant dispatcher and synthesis backend.

Shallow embedding of the command routing logic (`commands.py`), the
assistant speech-text pipeline (`assistant.py`) and the TTS backend state
machine (`tts.py`).  Python strings are embedded as Lean `String`s;
Python's `str.startswith` / `in` / `str.replace` / `str.strip` /
`str.lower` are embedded as executable functions over the character lists
(same semantics on the text the program manipulates).
External effects (process launch, OS calls, audio,
network, filesystem) are made explicit: nondeterministic outcomes become
oracle parameters and performed actions become effect lists.
-/

namespace Crux

/-- Python `s.startswith(p)`. -/
def py_startswith (s p : String) : Bool := p.data.isPrefixOf s.data

/-- Test whether `pat` occurs as a contiguous sublist of `l`. -/
def listInfix (pat : List Char) : List Char → Bool
  | [] => pat.isEmpty
  | c :: t => pat.isPrefixOf (c :: t) || listInfix pat t

/-- Python `sub in s` (substring containment). -/
def py_in (sub s : String) : Bool := listInfix sub.data s.data

/-- Python `s.lower()` (the program only lowercases ASCII text). -/
def py_lower (s : String) : String := ⟨s.data.map Char.toLower⟩

/-- Python `s.strip()`: drop whitespace from both ends. -/
def py_strip (s : String) : String :=
  ⟨((s.data.dropWhile Char.isWhitespace).reverse.dropWhile Char.isWhitespace).reverse⟩

/-- Replace the non-overlapping occurrences of `pat` in the list, left to
right, by `rep`.  The fuel argument (instantiated to the list length) only
makes the recursion structural; each step consumes at least one character
and one unit of fuel, so the fuel never runs out. -/
def pyReplaceAux (pat rep : List Char) : Nat → List Char → List Char
  | _, [] => []
  | 0, l => l
  | fuel + 1, c :: rest =>
    if pat.isPrefixOf (c :: rest) && !pat.isEmpty then
      rep ++ pyReplaceAux pat rep fuel ((c :: rest).drop pat.length)
    else
      c :: pyReplaceAux pat rep fuel rest

/-- Python `s.replace(old, new)` for non-empty `old` (left-to-right,
non-overlapping).  For empty `old` it returns `s` unchanged, which agrees
with Python exactly when `new = ""` — the only replacement the program
performs. -/
def py_replace (s old new : String) : String :=
  ⟨pyReplaceAux old.data new.data s.data.length s.data⟩

/-- The configuration mapping (`config.yaml`), restricted to the keys the
dispatcher and TTS backend read.  `Option` fields model keys that may be
absent (the reader applies the documented default). -/
structure Cfg where
  /-- Key `apps`: mapping from app-name keys to launch strings (default `{}`). -/
  apps : List (String × String)
  /-- Key `allow_shutdown` (default `False`). -/
  allow_shutdown : Bool
  /-- Key `music_path` (default `""`). -/
  music_path : String
  /-- Key `app.wake_word` (default `"crux"` applied at the read site). -/
  wake_word : Option String
  /-- Key `app.language_preference` (default applied at each read site). -/
  language_preference : Option String
  /-- Key `tts.mode` (default `"offline"` applied at the read site). -/
  tts_mode : Option String
  /-- Key `tts.gtts.lang_map` (default `{"en": "en", "ta": "ta"}`), resolved. -/
  lang_map : List (String × String)
deriving DecidableEq

/-- Host environment facts `handle_command` consults: module availability
(`AudioUtilities`, `sbc`), whether `sbc.set_brightness` raises (and the
exception text), and whether `os.path.exists(music_path)` holds. -/
structure Env where
  audioAvailable : Bool
  sbcAvailable : Bool
  brightnessError : Option String
  musicPathExists : Bool
deriving DecidableEq

/-- OS-level side effects performed by `handle_command`. -/
inductive Effect where
  | popen (launch : String)
  | webOpen (url : String)
  | volumeUp
  | volumeDown
  | brightnessSet (delta : String)
  | osSystem (cmd : String)
  | startfile (path : String)
deriving DecidableEq

/-- The hard-coded bubble-sort snippet returned by the `"crux write"` rule. -/
def bubbleSortCode : String :=
  "def bubble_sort(arr):\n" ++
  "    n = len(arr)\n" ++
  "    for i in range(n):\n" ++
  "        for j in range(0, n-i-1):\n" ++
  "            if arr[j] > arr[j+1]:\n" ++
  "                arr[j], arr[j+1] = arr[j+1], arr[j]\n" ++
  "    return arr\n" ++
  "print(bubble_sort([64, 34, 25, 12, 22, 11, 90]))"

/-- Python `commands.handle_command(command, cfg)`: lowercases the command, then
tries the rules in source order; the first rule that returns wins.  The
returned pair is the Python `(handled, response)`; the effect list records
the OS actions the taken path performs.  The volume and brightness rules
fall through (no return) when neither `"up"` nor `"down"` occurs. -/
def handle_command (command0 : String) (cfg : Cfg) (env : Env) :
    (Bool × String) × List Effect :=
  let command := py_lower command0
  if py_startswith command "open " then
    let app := py_replace command "open " ""
    match cfg.apps.lookup app with
    | some launch => ((true, s!"Opening {app}."), [Effect.popen launch])
    | none => ((true, s!"App {app} not found in config."), [])
  else if py_startswith command "search " then
    let query := py_replace command "search " ""
    ((true, s!"Searching the web for {query}."),
      [Effect.webOpen s!"https://www.google.com/search?q={query}"])
  else if py_in "volume" command && env.audioAvailable && py_in "up" command then
    ((true, "Volume increased."), [Effect.volumeUp])
  else if py_in "volume" command && env.audioAvailable && py_in "down" command then
    ((true, "Volume decreased."), [Effect.volumeDown])
  else if py_in "brightness" command && env.sbcAvailable && py_in "up" command then
    match env.brightnessError with
    | some e => ((true, s!"Brightness control error: {e}"), [])
    | none => ((true, "Brightness increased."), [Effect.brightnessSet "+10"])
  else if py_in "brightness" command && env.sbcAvailable && py_in "down" command then
    match env.brightnessError with
    | some e => ((true, s!"Brightness control error: {e}"), [])
    | none => ((true, "Brightness decreased."), [Effect.brightnessSet "-10"])
  else if py_in "shutdown" command || py_in "restart" command then
    if !cfg.allow_shutdown then
      ((true, "Shutdown and restart are disabled in config."), [])
    else if !py_in "confirm" command then
      ((true, "Say \x27confirm shutdown\x27 or \x27confirm restart\x27 to proceed."), [])
    else if py_in "shutdown" command then
      ((true, "Shutting down system..."), [Effect.osSystem "shutdown /s /t 1"])
    else
      -- the guard guarantees "restart" occurs here, so the source's
      -- `elif "restart" in command` is exhaustive in this branch
      ((true, "Restarting system..."), [Effect.osSystem "shutdown /r /t 1"])
  else if py_in "play music" command then
    if cfg.music_path != "" && env.musicPathExists then
      ((true, "Playing music."), [Effect.startfile cfg.music_path])
    else
      ((true, "Music path not configured."), [])
  else if py_startswith command "crux write" then
    if py_in "bubble sort" command then
      ((true, bubbleSortCode), [])
    else
      ((false, "Command not recognized."), [])
  else
    ((false, "Command not recognized."), [])

/-! ## TTS backend (`tts.py`, class `TTSEngine`)

The mutable attributes of a `TTSEngine` instance that the `say` path
reads or writes are `self.mode`, `self.engine` (modelled by whether a
handle is present), `self.lang_pref`, and the cache directory contents
(modelled as the list of file names present).  Voice selection
(`_pick_voice`) only configures the external engine object and is not
part of the modelled state.  Outcomes of external calls (pyttsx3
synthesis, engine re-initialization, gTTS synthesis) are oracle inputs;
`hashFn` models Python's `abs(hash(text))`, an arbitrary but fixed
function of the text within a process. -/

/-- Result of one `engine.say(...); engine.runAndWait()` attempt. -/
inductive OfflineRes where
  | ok
  | runtimeError
  | otherError
deriving DecidableEq

/-- Outcomes of the external calls one `say` invocation may make. -/
structure TTSOracle where
  /-- Outcome of the first offline synthesis attempt. -/
  offlineResult : OfflineRes
  /-- Whether `pyttsx3.init()` in the `except RuntimeError` branch succeeds. -/
  reinitOk : Bool
  /-- Whether the retried offline synthesis after re-init succeeds. -/
  retryOk : Bool
  /-- Whether `gTTS(...).save(...)` succeeds. -/
  synthOk : Bool
deriving DecidableEq

/-- Observable actions of the TTS backend. -/
inductive TEffect where
  /-- Offline pyttsx3 synthesis-and-playback of the text. -/
  | offlineSay (text : String)
  /-- Successful `pyttsx3.init()` re-initialization. -/
  | reinit
  /-- Hosted gTTS synthesis of the text, written to the cache under `key`. -/
  | synth (lang text : String)
  /-- Failed hosted synthesis (logged, utterance dropped). -/
  | synthFail
  /-- Playback thread started for the cached file `key`. -/
  | play (key : String)
deriving DecidableEq

/-- The state of one `TTSEngine` instance. -/
structure TTSEngine where
  /-- Attribute `self.mode` (a string, `"offline"` or `"online"` normally). -/
  mode : String
  /-- Whether `self.engine` is non-`None`. -/
  hasEngine : Bool
  /-- Attribute `self.lang_pref`. -/
  lang_pref : String
  /-- File names present in the TTS cache directory. -/
  cache : List String
deriving DecidableEq

/-- Constructor `TTSEngine.__init__` (tts.py lines 27-65): mode is read
from `tts.mode` (default `"offline"`), the language preference from
`app.language_preference` (default `"en"`); an offline configuration is
downgraded to `"online"` when pyttsx3 is missing or its initialization
raises.  `cache0` is the pre-existing content of the cache directory. -/
def TTSEngine.create (cfg : Cfg) (pyttsx3Available initOk : Bool)
    (cache0 : List String) : TTSEngine :=
  let mode := cfg.tts_mode.getD "offline"
  let lang := cfg.language_preference.getD "en"
  if mode = "offline" ∧ pyttsx3Available then
    if initOk then
      { mode := "offline", hasEngine := true, lang_pref := lang, cache := cache0 }
    else
      { mode := "online", hasEngine := false, lang_pref := lang, cache := cache0 }
  else if mode = "offline" then
    { mode := "online", hasEngine := false, lang_pref := lang, cache := cache0 }
  else
    { mode := mode, hasEngine := false, lang_pref := lang, cache := cache0 }

/-- Method `gtts_lang_code` (tts.py lines 181-186). -/
def TTSEngine.gtts_lang_code (cfg : Cfg) (lang_pref : String) : String :=
  (cfg.lang_map.lookup lang_pref).getD "en"

/-- The cache file name `f"{lang_code}_{abs(hash(text))}.mp3"`. -/
def cacheKey (hashFn : String → Nat) (lang_code text : String) : String :=
  s!"{lang_code}_{hashFn text}.mp3"

/-- Method `_say_online` (tts.py lines 155-179): resolve the language
code, compute the cache key; if the file is absent, synthesize into it
(on failure log and return — the utterance is dropped); then start the
playback thread. -/
def say_online (hashFn : String → Nat) (cfg : Cfg) (text : String)
    (st : TTSEngine) (o : TTSOracle) : TTSEngine × List TEffect :=
  let lang_code := TTSEngine.gtts_lang_code cfg st.lang_pref
  let key := cacheKey hashFn lang_code text
  if st.cache.contains key then
    (st, [TEffect.play key])
  else if o.synthOk then
    ({ st with cache := key :: st.cache }, [TEffect.synth lang_code text, TEffect.play key])
  else
    (st, [TEffect.synthFail])

/-- Method `_say_offline` (tts.py lines 125-152): under the engine lock,
re-resolve the language preference, then synthesize.  On `RuntimeError`,
re-initialize the engine once and retry; if the re-init or the retry
fails, or on any other exception, fall back to the online path for this
call.  Note that `self.mode` is never assigned here. -/
def say_offline (hashFn : String → Nat) (cfg : Cfg) (text : String)
    (st : TTSEngine) (o : TTSOracle) : TTSEngine × List TEffect :=
  let current_lang := cfg.language_preference.getD st.lang_pref
  let st := { st with lang_pref := current_lang }
  match o.offlineResult with
  | OfflineRes.ok => (st, [TEffect.offlineSay text])
  | OfflineRes.runtimeError =>
    if o.reinitOk then
      if o.retryOk then
        (st, [TEffect.reinit, TEffect.offlineSay text])
      else
        let r := say_online hashFn cfg text st o
        (r.fst, TEffect.reinit :: r.snd)
    else
      -- `self.engine = pyttsx3.init()` raised, so `self.engine` keeps its
      -- previous (non-None) value and the outer handler goes online
      say_online hashFn cfg text st o
  | OfflineRes.otherError => say_online hashFn cfg text st o

/-- Method `say` (tts.py lines 103-114): return immediately on falsy
(empty) text; use the offline path iff `self.mode == "offline"` and the
engine handle is present, the online path otherwise. -/
def TTSEngine.say (hashFn : String → Nat) (cfg : Cfg) (text : String)
    (st : TTSEngine) (o : TTSOracle) : TTSEngine × List TEffect :=
  if text = "" then (st, [])
  else if st.mode = "offline" ∧ st.hasEngine then
    say_offline hashFn cfg text st o
  else
    say_online hashFn cfg text st o

/-! ## Assistant (`assistant.py`, class `Assistant`)

The speech-text pipeline `on_stt_result` → `handle_user_text` →
`route_command` → `speak`.  The GPT call is external: `gptEnabled` is the
`self.gpt_enabled` flag decided at construction, and `gptOutcome` is the
outcome of `query_gpt` — `Except.ok content` carries the raw message
content the API returned (the code strips it), `Except.error e` models a
raised exception.  `hasJsonl` is whether `self.jsonl_path` is set; audit
lines are recorded as `(role, text)` pairs. -/

/-- Conversation events emitted through `self.emit`. -/
inductive Event where
  | log (message : String)
  | status (message : String)
  | transcript (role : String) (text : String)
deriving DecidableEq

/-- Everything one `on_stt_result` invocation produces: emitted events,
appended audit-log lines, OS command effects, TTS effects, and the
resulting TTS engine state. -/
structure AsstOut where
  events : List Event
  audit : List (String × String)
  cmdEffects : List Effect
  ttsEffects : List TEffect
  tts : TTSEngine
deriving DecidableEq

/-- Method `route_command` (assistant.py lines 112-127): built-in commands
first; if unhandled and GPT is enabled, return the stripped GPT answer,
catching any exception into a fixed apology; otherwise the fixed
fallback. -/
def route_command (text : String) (cfg : Cfg) (env : Env) (gptEnabled : Bool)
    (gptOutcome : Except String String) : String × List Effect :=
  let r := handle_command text cfg env
  if r.fst.fst then
    (r.fst.snd, r.snd)
  else if gptEnabled then
    match gptOutcome with
    | Except.ok content => (py_strip content, r.snd)
    | Except.error _ => ("Sorry, I couldn’t reach GPT right now.", r.snd)
  else
    ("I don’t understand. Please try again.", r.snd)

/-- Method `handle_user_text` (assistant.py lines 100-109): emit the user
transcript event, append the user audit line, route the command; if the
response is non-empty, speak it, emit the assistant transcript event and
append the assistant audit line. -/
def handle_user_text (hashFn : String → Nat) (cfg : Cfg) (env : Env)
    (gptEnabled : Bool) (gptOutcome : Except String String) (hasJsonl : Bool)
    (text : String) (tst : TTSEngine) (o : TTSOracle) : AsstOut :=
  let userAudit := if hasJsonl then [("user", text)] else []
  let rc := route_command text cfg env gptEnabled gptOutcome
  let response := rc.fst
  if response ≠ "" then
    let sr := TTSEngine.say hashFn cfg response tst o
    { events := [Event.transcript "user" text, Event.transcript "assistant" response],
      audit := userAudit ++ (if hasJsonl then [("assistant", response)] else []),
      cmdEffects := rc.snd, ttsEffects := sr.snd, tts := sr.fst }
  else
    { events := [Event.transcript "user" text], audit := userAudit,
      cmdEffects := rc.snd, ttsEffects := [], tts := tst }

/-- Callback `on_stt_result` (assistant.py lines 81-97): return on empty
text; strip and lowercase; if the wake word occurs, emit a log event,
remove every occurrence of the wake word, strip, and discard the
utterance if nothing remains; finally hand the text to
`handle_user_text`. -/
def on_stt_result (hashFn : String → Nat) (cfg : Cfg) (env : Env)
    (gptEnabled : Bool) (gptOutcome : Except String String) (hasJsonl : Bool)
    (text : String) (tst : TTSEngine) (o : TTSOracle) : AsstOut :=
  if text = "" then
    { events := [], audit := [], cmdEffects := [], ttsEffects := [], tts := tst }
  else
    let text_lower := py_lower (py_strip text)
    let wake_word := py_lower (cfg.wake_word.getD "crux")
    if py_in wake_word text_lower then
      let logEv := Event.log s!"Heard wake word: {wake_word}"
      let stripped := py_strip (py_replace text_lower wake_word "")
      if stripped = "" then
        { events := [logEv], audit := [], cmdEffects := [], ttsEffects := [], tts := tst }
      else
        let out := handle_user_text hashFn cfg env gptEnabled gptOutcome hasJsonl stripped tst o
        { out with events := logEv :: out.events }
    else
      handle_user_text hashFn cfg env gptEnabled gptOutcome hasJsonl text_lower tst o

/-! ## Sample instances used in concrete evaluations -/

/-- A minimal configuration: empty app table, shutdown disabled, defaults
elsewhere, the default gTTS language map. -/
def cfg0 : Cfg :=
  { apps := [], allow_shutdown := false, music_path := "", wake_word := none,
    language_preference := none, tts_mode := none,
    lang_map := [("en", "en"), ("ta", "ta")] }

/-- A configuration whose app table maps `"notepad"`. -/
def cfgNotepad : Cfg := { cfg0 with apps := [("notepad", "notepad.exe")] }

/-- A host with no audio/brightness modules and no music path. -/
def env0 : Env :=
  { audioAvailable := false, sbcAvailable := false, brightnessError := none,
    musicPathExists := false }

/-- A TTS engine in offline mode with a live engine handle. -/
def ttsOff : TTSEngine :=
  { mode := "offline", hasEngine := true, lang_pref := "en", cache := [] }

/-- A TTS engine in online mode. -/
def ttsOn : TTSEngine :=
  { mode := "online", hasEngine := false, lang_pref := "en", cache := [] }

/-- An oracle where every external call succeeds. -/
def oOk : TTSOracle :=
  { offlineResult := OfflineRes.ok, reinitOk := true, retryOk := true, synthOk := true }

/-- An oracle where offline synthesis raises `RuntimeError`, the engine
re-initializes, but the retried synthesis fails again; online synthesis
succeeds. -/
def oFail : TTSOracle :=
  { offlineResult := OfflineRes.runtimeError, reinitOk := true, retryOk := false,
    synthOk := true }

/-- A concrete stand-in for Python's string hash. -/
def hash0 : String → Nat := fun _ => 0

/-! ## Helper lemmas -/

/-- A cons pattern is a prefix exactly of lists starting with its head. -/
theorem isPrefixOf_cons_elim (a : Char) (p l : List Char)
    (h : List.isPrefixOf (a :: p) l = true) :
    ∃ t, l = a :: t := by
  cases l with
  | nil => simp [List.isPrefixOf] at h
  | cons b t =>
    simp [List.isPrefixOf] at h
    exact ⟨t, by rw [h.1]⟩

/-- A command starting with `"search "` does not start with `"open "`. -/
theorem not_open_of_search (s : String) (h : py_startswith s "search " = true) :
    py_startswith s "open " = false := by
  unfold py_startswith at h ⊢
  have hs : "search ".data = 's' :: "earch ".data := rfl
  rw [hs] at h
  obtain ⟨t, ht⟩ := isPrefixOf_cons_elim _ _ _ h
  have ho : "open ".data = 'o' :: "pen ".data := rfl
  rw [ho, ht]
  simp [List.isPrefixOf]

/-- The online path only touches the cache: mode, engine handle and
language preference are unchanged. -/
theorem say_online_fields (hashFn : String → Nat) (cfg : Cfg) (t : String)
    (s : TTSEngine) (o : TTSOracle) :
    (say_online hashFn cfg t s o).fst.mode = s.mode ∧
    (say_online hashFn cfg t s o).fst.hasEngine = s.hasEngine ∧
    (say_online hashFn cfg t s o).fst.lang_pref = s.lang_pref := by
  unfold say_online
  dsimp only
  repeat' split
  all_goals exact ⟨rfl, rfl, rfl⟩

/-- One `say` call never changes the mode: the offline→online downgrade
exists only in the constructor. -/
theorem say_mode_eq (hashFn : String → Nat) (cfg : Cfg) (t : String)
    (s : TTSEngine) (o : TTSOracle) :
    (TTSEngine.say hashFn cfg t s o).fst.mode = s.mode := by
  unfold TTSEngine.say say_offline say_online
  dsimp only
  repeat' split
  all_goals rfl

/-- With non-empty text and the mode `"online"`, `say` is the online path. -/
theorem say_online_of_mode (hashFn : String → Nat) (cfg : Cfg) (t : String)
    (s : TTSEngine) (o : TTSOracle) (hm : s.mode = "online") (ht : t ≠ "") :
    TTSEngine.say hashFn cfg t s o = say_online hashFn cfg t s o := by
  unfold TTSEngine.say
  rw [if_neg ht, if_neg]
  rintro ⟨hc, -⟩
  rw [hm] at hc
  simp at hc

/-- A cache hit: the file for the key exists, so the only effect is the
playback thread. -/
theorem say_online_hit (hashFn : String → Nat) (cfg : Cfg) (t : String)
    (s : TTSEngine) (o : TTSOracle)
    (hk : s.cache.contains (cacheKey hashFn (TTSEngine.gtts_lang_code cfg s.lang_pref) t)
            = true) :
    say_online hashFn cfg t s o =
      (s, [TEffect.play (cacheKey hashFn (TTSEngine.gtts_lang_code cfg s.lang_pref) t)]) := by
  unfold say_online
  simp only [hk, if_true]

/-- A cache miss with successful synthesis: the file is written and then
played. -/
theorem say_online_miss (hashFn : String → Nat) (cfg : Cfg) (t : String)
    (s : TTSEngine) (o : TTSOracle)
    (hk : s.cache.contains (cacheKey hashFn (TTSEngine.gtts_lang_code cfg s.lang_pref) t)
            = false)
    (hs : o.synthOk = true) :
    say_online hashFn cfg t s o =
      ({ s with cache := cacheKey hashFn (TTSEngine.gtts_lang_code cfg s.lang_pref) t
                  :: s.cache },
       [TEffect.synth (TTSEngine.gtts_lang_code cfg s.lang_pref) t,
        TEffect.play (cacheKey hashFn (TTSEngine.gtts_lang_code cfg s.lang_pref) t)]) := by
  unfold say_online
  simp only [hk, hs, Bool.false_eq_true, if_false, if_true]

/-! ## Claim C1: the `"open "` rule -/

/-- Counterexample to C1 as stated: for `"open open chrome"` the remainder
after the `"open "` prefix is `"open chrome"`, which is absent from the
(empty) app table, so the claim predicts the response
`"App open chrome not found in config."`; the code removes every
occurrence of `"open "` and answers about `"chrome"` instead. -/
theorem open_rule_cx :
    (handle_command "open open chrome" cfg0 env0).fst =
      (true, "App chrome not found in config.") ∧
    "App chrome not found in config." ≠ "App open chrome not found in config." := by
  decide

/-- C1 (amended): for every command whose lowercasing begins with
`"open "`, `handle_command` is handled with the app key taken as the
lowercased command with every occurrence of `"open "` removed; the
response is `"Opening {app}."` when the key is in the app table and
`"App {app} not found in config."` otherwise. -/
theorem open_rule_amended (command : String) (cfg : Cfg) (env : Env)
    (h : py_startswith (py_lower command) "open " = true) :
    (handle_command command cfg env).fst =
      (true,
        let app := py_replace (py_lower command) "open " ""
        match cfg.apps.lookup app with
        | some _ => s!"Opening {app}."
        | none => s!"App {app} not found in config.") := by
  unfold handle_command
  simp only [h, if_true]
  cases hl : cfg.apps.lookup (py_replace (py_lower command) "open " "") <;> simp [hl]

/-- Witness for `open_rule_amended` at `"open notepad"` with the app table
containing `"notepad"`. -/
theorem open_rule_amended_witness :
    py_startswith (py_lower "open notepad") "open " = true ∧
    (handle_command "open notepad" cfgNotepad env0).fst = (true, "Opening notepad.") :=
  ⟨by decide, (open_rule_amended "open notepad" cfgNotepad env0 (by decide)).trans (by decide)⟩

/-! ## Claim C5: the `"search "` rule -/

/-- Counterexample to C5 as stated: for `"search search cats"` the exact
trailing substring after the `"search "` prefix is `"search cats"`, but
the code removes every occurrence of `"search "` and searches for
`"cats"`. -/
theorem search_rule_cx :
    (handle_command "search search cats" cfg0 env0).fst =
      (true, "Searching the web for cats.") ∧
    "Searching the web for cats." ≠ "Searching the web for search cats." := by
  decide

/-- C5 (amended): for every command whose lowercasing begins with
`"search "`, `handle_command` is handled, the query is the lowercased
command with every occurrence of `"search "` removed, the response is
`"Searching the web for {query}."`, and a web search for the query is
opened. -/
theorem search_rule_amended (command : String) (cfg : Cfg) (env : Env)
    (h : py_startswith (py_lower command) "search " = true) :
    handle_command command cfg env =
      (let query := py_replace (py_lower command) "search " ""
       ((true, s!"Searching the web for {query}."),
        [Effect.webOpen s!"https://www.google.com/search?q={query}"])) := by
  have ho := not_open_of_search (py_lower command) h
  unfold handle_command
  simp only [ho, h, if_true, Bool.false_eq_true, if_false]

/-- Witness for `search_rule_amended` at `"search hello world"`. -/
theorem search_rule_amended_witness :
    py_startswith (py_lower "search hello world") "search " = true ∧
    (handle_command "search hello world" cfg0 env0).fst =
      (true, "Searching the web for hello world.") :=
  ⟨by decide,
    congrArg Prod.fst (search_rule_amended "search hello world" cfg0 env0 (by decide)) |>.trans
      (by decide)⟩

/-! ## Claim C6: shutdown/restart with the feature disabled -/

/-- Counterexample to C6 as stated: `"open shutdown"` contains
`"shutdown"` and `allow_shutdown` is false, but the `"open "` rule fires
first, so the response is not the disabled message. -/
theorem shutdown_disabled_cx :
    (handle_command "open shutdown" cfg0 env0).fst =
      (true, "App shutdown not found in config.") ∧
    "App shutdown not found in config." ≠ "Shutdown and restart are disabled in config." := by
  decide

/-- C6 (amended): for every command whose lowercasing contains
`"shutdown"` or `"restart"`, if `allow_shutdown` is false and no earlier
rule fires (the lowercased command does not begin with `"open "` or
`"search "`, and the volume and brightness rules do not match), the
result is handled with the fixed disabled message and no OS effect,
regardless of `"confirm"`. -/
theorem shutdown_disabled_amended (command : String) (cfg : Cfg) (env : Env)
    (hsd : cfg.allow_shutdown = false)
    (hg : (py_in "shutdown" (py_lower command) || py_in "restart" (py_lower command)) = true)
    (ho : py_startswith (py_lower command) "open " = false)
    (hs : py_startswith (py_lower command) "search " = false)
    (hvu : (py_in "volume" (py_lower command) && env.audioAvailable
             && py_in "up" (py_lower command)) = false)
    (hvd : (py_in "volume" (py_lower command) && env.audioAvailable
             && py_in "down" (py_lower command)) = false)
    (hbu : (py_in "brightness" (py_lower command) && env.sbcAvailable
             && py_in "up" (py_lower command)) = false)
    (hbd : (py_in "brightness" (py_lower command) && env.sbcAvailable
             && py_in "down" (py_lower command)) = false) :
    handle_command command cfg env =
      ((true, "Shutdown and restart are disabled in config."), []) := by
  unfold handle_command
  simp only [hsd, hg, ho, hs, hvu, hvd, hbu, hbd, Bool.false_eq_true, if_false, if_true,
    Bool.not_false, Bool.true_eq_false]

/-- Witness for `shutdown_disabled_amended` at `"confirm shutdown"` (the
presence of `"confirm"` does not change the disabled response). -/
theorem shutdown_disabled_amended_witness :
    cfg0.allow_shutdown = false ∧
    (handle_command "confirm shutdown" cfg0 env0) =
      ((true, "Shutdown and restart are disabled in config."), []) :=
  ⟨by decide,
    shutdown_disabled_amended "confirm shutdown" cfg0 env0 (by decide) (by decide) (by decide)
      (by decide) (by decide) (by decide) (by decide) (by decide)⟩

/-! ## Claim C4: offline failure fallback is per-call, not a permanent
mode transition -/

/-- Counterexample to C4 as stated: after a `say` whose offline attempt
raises, re-initializes and fails again (so the utterance is spoken via
the online path), the mode is still `"offline"` and the very next `say`
on the same instance speaks offline again. -/
theorem tts_failover_cx :
    (TTSEngine.say hash0 cfg0 "hello" ttsOff oFail).fst.mode = "offline" ∧
    (TTSEngine.say hash0 cfg0 "hello" ttsOff oFail).snd =
      [TEffect.reinit, TEffect.synth "en" "hello", TEffect.play "en_0.mp3"] ∧
    (TTSEngine.say hash0 cfg0 "again"
        (TTSEngine.say hash0 cfg0 "hello" ttsOff oFail).fst oOk).snd =
      [TEffect.offlineSay "again"] := by
  decide

/-- C4 (amended): when an offline `say` raises `RuntimeError` and the
retry after re-initialization also fails, the failing utterance is
spoken via the online path, but the mode stays `"offline"` with the
engine handle still present — so subsequent `say` calls attempt the
offline path again; moreover `say` never changes the mode at all (in
particular online never reverts to offline), the offline→online
downgrade existing only in the constructor. -/
theorem tts_failover_amended (hashFn : String → Nat) (cfg : Cfg) (text : String)
    (st : TTSEngine) (o : TTSOracle)
    (ht : text ≠ "") (hm : st.mode = "offline") (he : st.hasEngine = true)
    (h1 : o.offlineResult = OfflineRes.runtimeError)
    (h2 : o.reinitOk = true) (h3 : o.retryOk = false) :
    (TTSEngine.say hashFn cfg text st o).snd =
      TEffect.reinit ::
        (say_online hashFn cfg text
          { st with lang_pref := cfg.language_preference.getD st.lang_pref } o).snd ∧
    (TTSEngine.say hashFn cfg text st o).fst.mode = "offline" ∧
    (TTSEngine.say hashFn cfg text st o).fst.hasEngine = true ∧
    (∀ (t : String) (s : TTSEngine) (o2 : TTSOracle),
      (TTSEngine.say hashFn cfg t s o2).fst.mode = s.mode) := by
  have hsay : TTSEngine.say hashFn cfg text st o = say_offline hashFn cfg text st o := by
    unfold TTSEngine.say
    rw [if_neg ht, if_pos ⟨hm, he⟩]
  have hoff : say_offline hashFn cfg text st o =
      ((say_online hashFn cfg text
          { st with lang_pref := cfg.language_preference.getD st.lang_pref } o).fst,
       TEffect.reinit ::
         (say_online hashFn cfg text
           { st with lang_pref := cfg.language_preference.getD st.lang_pref } o).snd) := by
    unfold say_offline
    simp only [h1, h2, h3, if_true, Bool.false_eq_true, if_false]
  refine ⟨?_, ?_, ?_, fun t s o2 => say_mode_eq hashFn cfg t s o2⟩
  · rw [hsay, hoff]
  · rw [hsay, hoff]
    show (say_online hashFn cfg text _ o).fst.mode = "offline"
    rw [(say_online_fields hashFn cfg text _ o).1]
    exact hm
  · rw [hsay, hoff]
    show (say_online hashFn cfg text _ o).fst.hasEngine = true
    rw [(say_online_fields hashFn cfg text _ o).2.1]
    exact he

/-- Witness for `tts_failover_amended` at the concrete failing run. -/
theorem tts_failover_amended_witness :
    ("hello" ≠ "" ∧ ttsOff.mode = "offline" ∧ ttsOff.hasEngine = true) ∧
    ((TTSEngine.say hash0 cfg0 "hello" ttsOff oFail).snd =
      TEffect.reinit ::
        (say_online hash0 cfg0 "hello"
          { ttsOff with lang_pref := cfg0.language_preference.getD ttsOff.lang_pref } oFail).snd ∧
    (TTSEngine.say hash0 cfg0 "hello" ttsOff oFail).fst.mode = "offline" ∧
    (TTSEngine.say hash0 cfg0 "hello" ttsOff oFail).fst.hasEngine = true ∧
    (∀ (t : String) (s : TTSEngine) (o2 : TTSOracle),
      (TTSEngine.say hash0 cfg0 t s o2).fst.mode = s.mode)) :=
  ⟨⟨by decide, by decide, by decide⟩,
    tts_failover_amended hash0 cfg0 "hello" ttsOff oFail (by decide) (by decide) (by decide)
      (by decide) (by decide) (by decide)⟩

/-! ## Claim C7: online synthesis is cached per (text, language) -/

/-- Test for a hosted-synthesis effect. -/
def isSynth : TEffect → Bool
  | TEffect.synth _ _ => true
  | _ => false

/-- C7 (confirmed): in online mode, two `say` calls with the same text on
the same instance synthesize at most once; if the first call's synthesis
succeeds, the second call is a pure cache hit — its only effect is
playing the cached file for the computed key. -/
theorem tts_online_cache (hashFn : String → Nat) (cfg : Cfg) (text : String)
    (st : TTSEngine) (o1 o2 : TTSOracle)
    (ht : text ≠ "") (hm : st.mode = "online") (hs : o1.synthOk = true) :
    (TTSEngine.say hashFn cfg text (TTSEngine.say hashFn cfg text st o1).fst o2).snd =
      [TEffect.play (cacheKey hashFn (TTSEngine.gtts_lang_code cfg st.lang_pref) text)] ∧
    ((TTSEngine.say hashFn cfg text st o1).snd ++
      (TTSEngine.say hashFn cfg text (TTSEngine.say hashFn cfg text st o1).fst o2).snd).countP
        isSynth ≤ 1 := by
  rw [say_online_of_mode hashFn cfg text st o1 hm ht]
  cases hk : st.cache.contains (cacheKey hashFn (TTSEngine.gtts_lang_code cfg st.lang_pref) text) with
  | true =>
    rw [say_online_hit hashFn cfg text st o1 hk]
    rw [say_online_of_mode hashFn cfg text st o2 hm ht]
    rw [say_online_hit hashFn cfg text st o2 hk]
    exact ⟨rfl, by simp [isSynth]⟩
  | false =>
    rw [say_online_miss hashFn cfg text st o1 hk hs]
    dsimp only
    rw [say_online_of_mode hashFn cfg text
      { st with cache := cacheKey hashFn (TTSEngine.gtts_lang_code cfg st.lang_pref) text
                  :: st.cache } o2 hm ht]
    rw [say_online_hit hashFn cfg text
      { st with cache := cacheKey hashFn (TTSEngine.gtts_lang_code cfg st.lang_pref) text
                  :: st.cache } o2 (by simp)]
    exact ⟨rfl, by simp [isSynth]⟩

/-- Witness for `tts_online_cache` at `"hi"` on a fresh online engine. -/
theorem tts_online_cache_witness :
    ("hi" ≠ "" ∧ ttsOn.mode = "online" ∧ oOk.synthOk = true) ∧
    ((TTSEngine.say hash0 cfg0 "hi" (TTSEngine.say hash0 cfg0 "hi" ttsOn oOk).fst oOk).snd =
      [TEffect.play (cacheKey hash0 (TTSEngine.gtts_lang_code cfg0 ttsOn.lang_pref) "hi")] ∧
    ((TTSEngine.say hash0 cfg0 "hi" ttsOn oOk).snd ++
      (TTSEngine.say hash0 cfg0 "hi" (TTSEngine.say hash0 cfg0 "hi" ttsOn oOk).fst oOk).snd).countP
        isSynth ≤ 1) :=
  ⟨⟨by decide, by decide, by decide⟩,
    tts_online_cache hash0 cfg0 "hi" ttsOn oOk oOk (by decide) (by decide) (by decide)⟩

/-! ## Claim C8: `say` short-circuits only on empty text -/

/-- Counterexample to C8 as stated: blank (whitespace-only) text is not
empty, so `say " "` proceeds — in online mode it synthesizes and plays
the blank text and grows the cache. -/
theorem say_blank_cx :
    (TTSEngine.say hash0 cfg0 " " ttsOn oOk).snd =
      [TEffect.synth "en" " ", TEffect.play "en_0.mp3"] ∧
    (TTSEngine.say hash0 cfg0 " " ttsOn oOk).fst ≠ ttsOn ∧
    ([TEffect.synth "en" " ", TEffect.play "en_0.mp3"] : List TEffect) ≠ [] := by
  decide

/-- C8 (amended): `say` is a no-op exactly on the empty string: no
synthesis, no playback, no state change.  (Python's `if not text` only
catches the empty string, not whitespace-only text.) -/
theorem say_empty_noop (hashFn : String → Nat) (cfg : Cfg) (st : TTSEngine)
    (o : TTSOracle) :
    TTSEngine.say hashFn cfg "" st o = (st, []) := by
  unfold TTSEngine.say
  simp

/-! ## Claim C9: GPT errors are caught and replaced by the apology -/

/-- C9 (confirmed): when the built-in commands do not handle the text and
GPT is enabled, a raised GPT error is caught and `route_command` returns
the fixed apology string — the error never propagates (the model of
`route_command` is a total function whose error branch yields the
apology). -/
theorem gpt_error_apology (text : String) (cfg : Cfg) (env : Env) (e : String)
    (h : (handle_command text cfg env).fst.fst = false) :
    route_command text cfg env true (Except.error e) =
      ("Sorry, I couldn’t reach GPT right now.", (handle_command text cfg env).snd) := by
  unfold route_command
  simp only [h, Bool.false_eq_true, if_false, if_true]

/-- Witness for `gpt_error_apology` at the unrecognized text
`"blah blah"`. -/
theorem gpt_error_apology_witness :
    (handle_command "blah blah" cfg0 env0).fst.fst = false ∧
    route_command "blah blah" cfg0 env0 true (Except.error "boom") =
      ("Sorry, I couldn’t reach GPT right now.", (handle_command "blah blah" cfg0 env0).snd) :=
  ⟨by decide, gpt_error_apology "blah blah" cfg0 env0 "boom" (by decide)⟩

/-! ## Claim C10: the STT callback ignores empty text -/

/-- C10 (confirmed): `on_stt_result` invoked with the empty string
produces no events, no audit lines, no effects, and leaves the TTS engine
state unchanged. -/
theorem on_stt_result_empty (hashFn : String → Nat) (cfg : Cfg) (env : Env)
    (gptEnabled : Bool) (gptOutcome : Except String String) (hasJsonl : Bool)
    (tst : TTSEngine) (o : TTSOracle) :
    on_stt_result hashFn cfg env gptEnabled gptOutcome hasJsonl "" tst o =
      { events := [], audit := [], cmdEffects := [], ttsEffects := [], tts := tst } := by
  unfold on_stt_result
  simp

/-! ## Claim C2: a wake-word-only utterance -/

/-- Counterexample to C2 as stated: the utterance `"crux"` (exactly the
wake word) produces one `log` event — not zero events — before being
discarded. -/
theorem wake_empty_cx :
    on_stt_result hash0 cfg0 env0 false (Except.ok "") false "crux" ttsOff oOk =
      { events := [Event.log "Heard wake word: crux"], audit := [], cmdEffects := [],
        ttsEffects := [], tts := ttsOff } ∧
    [Event.log "Heard wake word: crux"] ≠ ([] : List Event) := by
  decide

/-- C2 (amended): a non-empty spoken utterance containing the wake word
that strips to the empty string produces exactly one `log` event (the
wake-word log) and nothing else: no status or transcript event, no audit
line, no command or TTS effect, and the TTS state is unchanged. -/
theorem wake_empty_amended (hashFn : String → Nat) (cfg : Cfg) (env : Env)
    (gptEnabled : Bool) (gptOutcome : Except String String) (hasJsonl : Bool)
    (text : String) (tst : TTSEngine) (o : TTSOracle)
    (h0 : text ≠ "")
    (hw : py_in (py_lower (cfg.wake_word.getD "crux")) (py_lower (py_strip text)) = true)
    (hs : py_strip (py_replace (py_lower (py_strip text))
            (py_lower (cfg.wake_word.getD "crux")) "") = "") :
    on_stt_result hashFn cfg env gptEnabled gptOutcome hasJsonl text tst o =
      (let wake := py_lower (cfg.wake_word.getD "crux")
       { events := [Event.log s!"Heard wake word: {wake}"],
         audit := [], cmdEffects := [], ttsEffects := [], tts := tst }) := by
  unfold on_stt_result
  rw [if_neg h0]
  simp only [hw, if_true, hs]

/-- Witness for `wake_empty_amended` at the utterance `"crux"`. -/
theorem wake_empty_amended_witness :
    ("crux" ≠ "" ∧
      py_in (py_lower (cfg0.wake_word.getD "crux")) (py_lower (py_strip "crux")) = true ∧
      py_strip (py_replace (py_lower (py_strip "crux"))
        (py_lower (cfg0.wake_word.getD "crux")) "") = "") ∧
    on_stt_result hash0 cfg0 env0 false (Except.ok "") false "crux" ttsOff oOk =
      (let wake := py_lower (cfg0.wake_word.getD "crux")
       { events := [Event.log s!"Heard wake word: {wake}"],
         audit := [], cmdEffects := [], ttsEffects := [], tts := ttsOff }) :=
  ⟨⟨by decide, by decide, by decide⟩,
    wake_empty_amended hash0 cfg0 env0 false (Except.ok "") false "crux" ttsOff oOk
      (by decide) (by decide) (by decide)⟩

/-! ## Claim C3: wake-word stripping removes every occurrence -/

/-- Counterexample to C3 as stated: for `"crux play crux music"` the
claim predicts the routed text `"play crux music"` (only the first
occurrence removed); the code removes both occurrences and routes
`"play  music"`, which no longer contains the wake word. -/
theorem wake_strip_cx :
    (on_stt_result hash0 cfg0 env0 false (Except.ok "") false "crux play crux music"
        ttsOff oOk).events =
      [Event.log "Heard wake word: crux",
       Event.transcript "user" "play  music",
       Event.transcript "assistant" "I don’t understand. Please try again."] ∧
    py_in "crux" "play  music" = false ∧
    "play  music" ≠ "play crux music" := by
  decide

/-- C3 (amended): when the wake word occurs in the stripped lowercased
utterance and removal leaves a non-empty string, the stripping removes
every occurrence of the wake-word substring (then trims whitespace), and
exactly that resulting text is passed on for routing: it is the text of
the emitted user transcript event. -/
theorem wake_strip_amended (hashFn : String → Nat) (cfg : Cfg) (env : Env)
    (gptEnabled : Bool) (gptOutcome : Except String String) (hasJsonl : Bool)
    (text : String) (tst : TTSEngine) (o : TTSOracle)
    (h0 : text ≠ "")
    (hw : py_in (py_lower (cfg.wake_word.getD "crux")) (py_lower (py_strip text)) = true)
    (hne : py_strip (py_replace (py_lower (py_strip text))
             (py_lower (cfg.wake_word.getD "crux")) "") ≠ "") :
    (on_stt_result hashFn cfg env gptEnabled gptOutcome hasJsonl text tst o).events =
      (let wake := py_lower (cfg.wake_word.getD "crux")
       Event.log s!"Heard wake word: {wake}" ::
        (handle_user_text hashFn cfg env gptEnabled gptOutcome hasJsonl
          (py_strip (py_replace (py_lower (py_strip text)) wake ""))
          tst o).events) ∧
    (handle_user_text hashFn cfg env gptEnabled gptOutcome hasJsonl
        (py_strip (py_replace (py_lower (py_strip text))
          (py_lower (cfg.wake_word.getD "crux")) ""))
        tst o).events.head? =
      some (Event.transcript "user"
        (py_strip (py_replace (py_lower (py_strip text))
          (py_lower (cfg.wake_word.getD "crux")) ""))) := by
  constructor
  · unfold on_stt_result
    rw [if_neg h0]
    simp only [hw, if_true]
    rw [if_neg hne]
  · unfold handle_user_text
    dsimp only
    split
    · rfl
    · rfl

/-- Witness for `wake_strip_amended` at the utterance `"crux hello"`. -/
theorem wake_strip_amended_witness :
    ("crux hello" ≠ "" ∧
      py_in (py_lower (cfg0.wake_word.getD "crux")) (py_lower (py_strip "crux hello")) = true ∧
      py_strip (py_replace (py_lower (py_strip "crux hello"))
        (py_lower (cfg0.wake_word.getD "crux")) "") ≠ "") ∧
    ((on_stt_result hash0 cfg0 env0 false (Except.ok "") false "crux hello" ttsOff oOk).events =
      (let wake := py_lower (cfg0.wake_word.getD "crux")
       Event.log s!"Heard wake word: {wake}" ::
        (handle_user_text hash0 cfg0 env0 false (Except.ok "") false
          (py_strip (py_replace (py_lower (py_strip "crux hello")) wake ""))
          ttsOff oOk).events) ∧
    (handle_user_text hash0 cfg0 env0 false (Except.ok "") false
        (py_strip (py_replace (py_lower (py_strip "crux hello"))
          (py_lower (cfg0.wake_word.getD "crux")) ""))
        ttsOff oOk).events.head? =
      some (Event.transcript "user"
        (py_strip (py_replace (py_lower (py_strip "crux hello"))
          (py_lower (cfg0.wake_word.getD "crux")) "")))) :=
  ⟨⟨by decide, by decide, by decide⟩,
    wake_strip_amended hash0 cfg0 env0 false (Except.ok "") false "crux hello" ttsOff oOk
      (by decide) (by decide) (by decide)⟩

end Crux
